import Mathlib

/-!
Verification of the grvslib concurrency primitives against their
natural-language specification.

The development shallowly embeds two components:

* `atomic_notifying_parameter` from src/grvslib/concurrency/realtime.h:
  a single-slot "latest value wins" handoff with a pending flag
  (`m_has_been_updated`), an exclusion flag (`m_is_being_accessed`) and a
  payload cell (`m_payload`).  The compile-time dispatch on whether the
  payload storage type is a std::atomic is modelled by a Boolean parameter
  `storage_is_atomic`, which for a concrete C++ payload type is computed by
  `PayloadStorageType_is_atomic` over the `CppType` model below.
  Each operation returns, besides the new slot state and its results, the
  list of primitive atomic events it performs, in source order, so that
  intra-call ordering properties (clear-before-load, store-before-set) can
  be stated.  Operations are given sequential (interleaving-free) semantics:
  `store_and_set` returns `none` when its guarded-mode wait on the exclusion
  flag would block forever in a single-thread execution.

* `DoubleCheckedLock` from src/concurrency/double_checked_lock.h: a
  double-checked-lock one-time initializer over an atomic cache cell with a
  designated `NullVal` sentinel.  The filler is modelled as a possibly
  failing function of the invocation index, and the state carries the
  number of filler invocations so far, so that exactly-once properties can
  be counted.
-/

namespace Grvslib

/-- Memory orders as used at the atomic call sites of the source.  All the
atomic_notifying_parameter call sites use the std defaults, which are
seq_cst; the DoubleCheckedLock cell accesses are relaxed with fences. -/
inductive MemOrder where
  | relaxed
  | acquire
  | release
  | seq_cst
deriving DecidableEq, Repr

/-- seq_cst subsumes release semantics. -/
def MemOrder.hasRelease : MemOrder → Bool
  | .release => true
  | .seq_cst => true
  | _ => false

/-- seq_cst subsumes acquire semantics. -/
def MemOrder.hasAcquire : MemOrder → Bool
  | .acquire => true
  | .seq_cst => true
  | _ => false

/-- Model of the C++ payload type argument, as far as the compile-time
classification in realtime.h inspects it: whether it is a std::atomic
specialization, whether it is an arithmetic type, and what the platform
reports for is_always_lock_free of the relevant atomic.

`plain is_arith wrap_alf` models a non-atomic type; `is_arith` is
std::is_arithmetic, and `wrap_alf` is what std::atomic of that type would
report for is_always_lock_free (false for types too large for the
platform's lock-free atomic primitives).
`atomicT alf` models std::atomic of some type, with `alf` its
is_always_lock_free. -/
inductive CppType where
  | plain (is_arith : Bool) (wrap_alf : Bool)
  | atomicT (alf : Bool)
deriving DecidableEq, Repr

/-- grvslib::impl::is_atomic: true exactly on std::atomic specializations. -/
def is_atomic : CppType → Bool
  | .plain _ _ => false
  | .atomicT _ => true

/-- std::is_arithmetic for the modelled type. -/
def is_arithmetic : CppType → Bool
  | .plain a _ => a
  | .atomicT _ => false

/-- Wrapping the modelled type in std::atomic. -/
def atomic_of : CppType → CppType
  | .plain _ wrap_alf => .atomicT wrap_alf
  | .atomicT alf => .atomicT alf

/-- PayloadStorageType from realtime.h: if PayloadType is not atomic and is
arithmetic, store it as std::atomic of PayloadType; otherwise store
PayloadType itself. -/
def PayloadStorageType (P : CppType) : CppType :=
  if !is_atomic P && is_arithmetic P then atomic_of P else P

/-- type_is_atomic_and_always_lock_free from realtime.h: for an atomic type,
its is_always_lock_free; false for any other type. -/
def type_is_atomic_and_always_lock_free : CppType → Bool
  | .atomicT alf => alf
  | .plain _ _ => false

/-- PayloadStorageType_is_atomic from realtime.h. -/
def PayloadStorageType_is_atomic (P : CppType) : Bool :=
  is_atomic (PayloadStorageType P)

/-- The public compile-time constant is_always_lock_free of
atomic_notifying_parameter. -/
def is_always_lock_free (P : CppType) : Bool :=
  type_is_atomic_and_always_lock_free (PayloadStorageType P)

/-- The BigStruct payload of the tests: a struct of a float, a long double
and a uint64_t.  Not an arithmetic type, and too large for the platform's
lock-free atomic primitives, so std::atomic of it is not always-lock-free. -/
def BigStruct : CppType := .plain false false

/-- State of one atomic_notifying_parameter slot: the update-notification
flag, the exclusion flag, and the payload cell. -/
structure atomic_notifying_parameter (α : Type) where
  m_has_been_updated : Bool
  m_is_being_accessed : Bool
  m_payload : α
deriving DecidableEq, Repr

/-- Primitive events performed by the slot operations, in source order,
with the memory order used at each atomic call site. -/
inductive SlotEv (α : Type) where
  | testFlag (result : Bool) (mo : MemOrder)
  | clearFlag (mo : MemOrder)
  | setFlag (mo : MemOrder)
  | loadPayload (v : α) (mo : MemOrder)
  | storePayload (v : α) (mo : MemOrder)
  | copyOut (v : α)
  | copyIn (v : α)
  | tasAccess (prev : Bool) (mo : MemOrder)
  | clearAccess (mo : MemOrder)
  | notifyAll
  | waitAccess
deriving DecidableEq, Repr

/-- load_and_clear_if_set from realtime.h, sequential semantics.
`storage_is_atomic` is the compile-time PayloadStorageType_is_atomic
dispatch; `out` is the prior contents of the reader_payload location.
Returns the new slot state, the contents of the reader_payload location
after the call, the Boolean return value, and the event trace. -/
def load_and_clear_if_set (storage_is_atomic : Bool)
    (s : atomic_notifying_parameter α) (out : α) :
    atomic_notifying_parameter α × α × Bool × List (SlotEv α) :=
  if s.m_has_been_updated then
    if storage_is_atomic then
      -- Fast path: clear the update notification flag first, then
      -- atomically load the payload.
      ({ s with m_has_been_updated := false }, s.m_payload, true,
        [.testFlag true .seq_cst, .clearFlag .seq_cst,
         .loadPayload s.m_payload .seq_cst])
    else
      if s.m_is_being_accessed then
        -- test_and_set found the exclusion flag already set: skip this
        -- read attempt.
        (s, out, false,
          [.testFlag true .seq_cst, .tasAccess true .seq_cst])
      else
        -- Claimed the exclusion flag: copy the payload out, clear the
        -- update flag, release the exclusion flag, notify.
        ({ s with m_has_been_updated := false, m_is_being_accessed := false },
          s.m_payload, true,
          [.testFlag true .seq_cst, .tasAccess false .seq_cst,
           .copyOut s.m_payload, .clearFlag .seq_cst,
           .clearAccess .seq_cst, .notifyAll])
  else
    (s, out, false, [.testFlag false .seq_cst])

/-- store_and_set from realtime.h, sequential semantics.  In guarded mode
the call first waits for the exclusion flag to clear; in a single-thread
execution a set exclusion flag would make that wait spin forever, which is
modelled as `none`. -/
def store_and_set (storage_is_atomic : Bool)
    (s : atomic_notifying_parameter α) (v : α) :
    Option (atomic_notifying_parameter α × List (SlotEv α)) :=
  if storage_is_atomic then
    -- Fast path: atomic store of the payload, then test_and_set of the
    -- update notification flag.
    some ({ s with m_payload := v, m_has_been_updated := true },
      [.storePayload v .seq_cst, .setFlag .seq_cst])
  else
    if s.m_is_being_accessed then
      none
    else
      -- wait(true) returns at once, the test_and_set spin claims the
      -- exclusion flag, the payload is copied in, the flag released,
      -- waiters notified, and finally the update flag is set.
      some (⟨true, false, v⟩,
        [.waitAccess, .tasAccess false .seq_cst, .copyIn v,
         .clearAccess .seq_cst, .notifyAll, .setFlag .seq_cst])

/-- Slot states reachable, in a sequential execution, from a freshly
constructed slot (both flags clear, payload indeterminate) by completed
store_and_set and load_and_clear_if_set calls. -/
inductive Reachable (storage_is_atomic : Bool) :
    atomic_notifying_parameter α → Prop where
  | init (a : α) : Reachable storage_is_atomic ⟨false, false, a⟩
  | store {s s' : atomic_notifying_parameter α} {v : α}
      {tr : List (SlotEv α)} :
      Reachable storage_is_atomic s →
      store_and_set storage_is_atomic s v = some (s', tr) →
      Reachable storage_is_atomic s'
  | load {s : atomic_notifying_parameter α} {out : α} :
      Reachable storage_is_atomic s →
      Reachable storage_is_atomic
        (load_and_clear_if_set storage_is_atomic s out).1

/-- Sequentially applying store_and_set for each value of a list in turn. -/
def store_seq (storage_is_atomic : Bool) :
    List α → atomic_notifying_parameter α →
    Option (atomic_notifying_parameter α)
  | [], s => some s
  | v :: vs, s =>
      match store_and_set storage_is_atomic s v with
      | none => none
      | some (s', _) => store_seq storage_is_atomic vs s'

/-- Invariant: in sequentially reachable states the exclusion flag is never
left set — every operation that claims it releases it before returning. -/
theorem Reachable.access_clear {storage_is_atomic : Bool}
    {s : atomic_notifying_parameter α}
    (h : Reachable storage_is_atomic s) : s.m_is_being_accessed = false := by
  induction h with
  | init a => rfl
  | store hr hs ih =>
      rename_i s s' v tr
      unfold store_and_set at hs
      by_cases hb : storage_is_atomic
      · simp [hb] at hs
        simp [← hs.1, ih]
      · simp [hb, ih] at hs
        simp [← hs.1]
  | load hr ih =>
      rename_i s out
      unfold load_and_clear_if_set
      by_cases hu : s.m_has_been_updated
      · by_cases hb : storage_is_atomic
        · simp [hu, hb, ih]
        · simp [hu, hb, ih]
      · simp [hu, ih]

/-- After a completed store_and_set the slot holds the stored value, the
update flag is set, and the exclusion flag is clear. -/
theorem store_and_set_of_access_clear {storage_is_atomic : Bool}
    {s : atomic_notifying_parameter α} (v : α)
    (ha : s.m_is_being_accessed = false) :
    ∃ tr, store_and_set storage_is_atomic s v = some (⟨true, false, v⟩, tr) := by
  cases s with
  | mk u acc p =>
      cases acc with
      | true => cases ha
      | false =>
          by_cases hb : storage_is_atomic
          · exact ⟨[.storePayload v .seq_cst, .setFlag .seq_cst],
              by simp [store_and_set, hb]⟩
          · exact ⟨[.waitAccess, .tasAccess false .seq_cst, .copyIn v,
              .clearAccess .seq_cst, .notifyAll, .setFlag .seq_cst],
              by simp [store_and_set, hb]⟩

/-- Claim C1: from any sequentially reachable slot state, store_and_set(v)
followed by load_and_clear_if_set(&out) with no other intervening operation
completes, returns true, and leaves v in the reader location, in both fast
and guarded modes. -/
theorem C1_round_trip {storage_is_atomic : Bool}
    {s : atomic_notifying_parameter α} (v out : α)
    (h : Reachable storage_is_atomic s) :
    ∃ tr, store_and_set storage_is_atomic s v = some (⟨true, false, v⟩, tr) ∧
      (load_and_clear_if_set storage_is_atomic
        (⟨true, false, v⟩ : atomic_notifying_parameter α) out).2.1 = v ∧
      (load_and_clear_if_set storage_is_atomic
        (⟨true, false, v⟩ : atomic_notifying_parameter α) out).2.2.1 = true := by
  obtain ⟨tr, htr⟩ := store_and_set_of_access_clear v h.access_clear
  refine ⟨tr, htr, ?_, ?_⟩ <;>
    by_cases hb : storage_is_atomic <;>
      simp [load_and_clear_if_set, hb]

/-- Witness for C1 at a concrete input: payload type Nat in fast mode,
starting from a fresh slot. -/
theorem C1_round_trip_witness :
    ∃ tr, store_and_set true
        (⟨false, false, 0⟩ : atomic_notifying_parameter ℕ) 5 =
        some (⟨true, false, 5⟩, tr) ∧
      (load_and_clear_if_set true
        (⟨true, false, 5⟩ : atomic_notifying_parameter ℕ) 0).2.1 = 5 ∧
      (load_and_clear_if_set true
        (⟨true, false, 5⟩ : atomic_notifying_parameter ℕ) 0).2.2.1 = true :=
  C1_round_trip 5 0 (Reachable.init 0)

/-- A non-empty publish sequence from a state with the exclusion flag clear
completes and leaves exactly the last published value in the slot, with the
update flag set. -/
theorem store_seq_last {storage_is_atomic : Bool} :
    ∀ (vs : List α) (s : atomic_notifying_parameter α),
    s.m_is_being_accessed = false → ∀ (hne : vs ≠ []),
    store_seq storage_is_atomic vs s = some ⟨true, false, vs.getLast hne⟩ := by
  intro vs
  induction vs with
  | nil => intro s ha hne; exact absurd rfl hne
  | cons v vs ih =>
      intro s ha hne
      obtain ⟨tr, htr⟩ :=
        @store_and_set_of_access_clear α storage_is_atomic s v ha
      cases vs with
      | nil => simp [store_seq, htr]
      | cons w ws =>
          rw [List.getLast_cons (by simp)]
          simp only [store_seq, htr]
          exact ih _ rfl (by simp)

/-- Claim C2: after any non-empty sequence of publishes with no intervening
consume, starting from a reachable state, the next consume succeeds and
yields exactly the value of the last publish; the slot payload holds only
that value, so no earlier value of the sequence is observable. -/
theorem C2_last_writer_wins {storage_is_atomic : Bool}
    {s : atomic_notifying_parameter α} (vs : List α) (out : α)
    (h : Reachable storage_is_atomic s) (hne : vs ≠ []) :
    store_seq storage_is_atomic vs s = some ⟨true, false, vs.getLast hne⟩ ∧
      (load_and_clear_if_set storage_is_atomic
        (⟨true, false, vs.getLast hne⟩ : atomic_notifying_parameter α) out).2.1 =
        vs.getLast hne ∧
      (load_and_clear_if_set storage_is_atomic
        (⟨true, false, vs.getLast hne⟩ : atomic_notifying_parameter α) out).2.2.1 =
        true := by
  refine ⟨store_seq_last vs s h.access_clear hne, ?_, ?_⟩ <;>
    by_cases hb : storage_is_atomic <;>
      simp [load_and_clear_if_set, hb]

/-- Witness for C2 at a concrete input: publishes of 1, 2, 3 in guarded
mode from a fresh slot; the consume yields 3. -/
theorem C2_last_writer_wins_witness :
    store_seq false [1, 2, 3] (⟨false, false, 0⟩ : atomic_notifying_parameter ℕ) =
      some ⟨true, false, ([1, 2, 3] : List ℕ).getLast (by simp)⟩ ∧
      (load_and_clear_if_set false
        (⟨true, false, ([1, 2, 3] : List ℕ).getLast (by simp)⟩ :
          atomic_notifying_parameter ℕ) 9).2.1 = ([1, 2, 3] : List ℕ).getLast (by simp) ∧
      (load_and_clear_if_set false
        (⟨true, false, ([1, 2, 3] : List ℕ).getLast (by simp)⟩ :
          atomic_notifying_parameter ℕ) 9).2.2.1 = true :=
  C2_last_writer_wins [1, 2, 3] 9 (Reachable.init 0) (by simp)

/-- Claim C3: a freshly constructed slot has no pending update; a
successful consume leaves no pending update; and whenever no update is
pending, load_and_clear_if_set returns false, leaves the slot state and the
reader location untouched, and performs only the flag test. -/
theorem C3_no_pending_returns_false {storage_is_atomic : Bool}
    (s : atomic_notifying_parameter α) (a out out2 : α) :
    ((⟨false, false, a⟩ : atomic_notifying_parameter α).m_has_been_updated
      = false) ∧
    ((load_and_clear_if_set storage_is_atomic s out).2.2.1 = true →
      (load_and_clear_if_set storage_is_atomic s out).1.m_has_been_updated
        = false) ∧
    (s.m_has_been_updated = false →
      load_and_clear_if_set storage_is_atomic s out2 =
        (s, out2, false, [SlotEv.testFlag false MemOrder.seq_cst])) := by
  refine ⟨rfl, ?_, ?_⟩
  · intro hres
    unfold load_and_clear_if_set at hres ⊢
    by_cases hu : s.m_has_been_updated
    · by_cases hb : storage_is_atomic
      · simp [hu, hb]
      · by_cases ha : s.m_is_being_accessed
        · simp [hu, hb, ha] at hres
        · simp [hu, hb, ha]
    · simp [hu] at hres
  · intro hu
    unfold load_and_clear_if_set
    simp [hu]

/-- Witness for C3 at a concrete input: fast mode, fresh slot with payload
7, reader location holding 3; the consume returns false and leaves 3. -/
theorem C3_no_pending_returns_false_witness :
    ((⟨false, false, 7⟩ : atomic_notifying_parameter ℕ).m_has_been_updated
      = false) ∧
    ((load_and_clear_if_set true
        (⟨false, false, 7⟩ : atomic_notifying_parameter ℕ) 3).2.2.1 = true →
      (load_and_clear_if_set true
        (⟨false, false, 7⟩ : atomic_notifying_parameter ℕ) 3).1.m_has_been_updated
        = false) ∧
    ((⟨false, false, 7⟩ : atomic_notifying_parameter ℕ).m_has_been_updated
        = false →
      load_and_clear_if_set true
          (⟨false, false, 7⟩ : atomic_notifying_parameter ℕ) 3 =
        (⟨false, false, 7⟩, 3, false, [SlotEv.testFlag false MemOrder.seq_cst])) :=
  C3_no_pending_returns_false (⟨false, false, 7⟩ : atomic_notifying_parameter ℕ)
    7 3 3

/-- Claim C4: is_always_lock_free exactly reflects the fast-mode
classification: true for every non-atomic arithmetic payload type whose
atomic wrapper the platform reports always-lock-free (small enough for the
lock-free primitives), equal to the platform report for every explicitly
atomic-wrapped payload, and false for the BigStruct payload (a struct of a
float, a long double and a uint64_t, too large for any atomic primitive). -/
theorem C4_lock_free_classification :
    (∀ t : CppType, is_atomic t = false → is_arithmetic t = true →
      type_is_atomic_and_always_lock_free (atomic_of t) = true →
      is_always_lock_free t = true) ∧
    (∀ alf : Bool, is_always_lock_free (.atomicT alf) = alf) ∧
    is_always_lock_free BigStruct = false := by
  refine ⟨?_, ?_, rfl⟩
  · intro t hna ha half
    cases t with
    | plain a w =>
        simp [is_arithmetic] at ha
        simp [type_is_atomic_and_always_lock_free, atomic_of] at half
        simp [is_always_lock_free, PayloadStorageType, is_atomic, is_arithmetic,
          ha, half, atomic_of, type_is_atomic_and_always_lock_free]
    | atomicT alf => cases hna
  · intro alf
    simp [is_always_lock_free, PayloadStorageType, is_atomic,
      type_is_atomic_and_always_lock_free]

/-- Witness for C4 at concrete types: plain int (arithmetic, lock-free
wrapper), std::atomic int (always lock free), and BigStruct. -/
theorem C4_lock_free_classification_witness :
    (is_atomic (.plain true true) = false ∧
      is_arithmetic (.plain true true) = true ∧
      type_is_atomic_and_always_lock_free (atomic_of (.plain true true)) = true ∧
      is_always_lock_free (.plain true true) = true) ∧
    is_always_lock_free (.atomicT true) = true ∧
    is_always_lock_free BigStruct = false :=
  ⟨⟨rfl, rfl, rfl,
      C4_lock_free_classification.1 (.plain true true) rfl rfl rfl⟩,
    C4_lock_free_classification.2.1 true,
    C4_lock_free_classification.2.2⟩

/-- Claim C5: in guarded mode (payload storage not atomic), when the update
flag is set but the exclusion flag is already held, load_and_clear_if_set
returns false at once — its trace is just the flag test and the one failed
test_and_set, with no wait event — and neither the slot state nor the
reader location is changed. -/
theorem C5_guarded_fail_fast (P : CppType)
    (hP : PayloadStorageType_is_atomic P = false)
    (s : atomic_notifying_parameter α) (out : α)
    (hu : s.m_has_been_updated = true) (ha : s.m_is_being_accessed = true) :
    load_and_clear_if_set (PayloadStorageType_is_atomic P) s out =
      (s, out, false,
        [SlotEv.testFlag true MemOrder.seq_cst,
         SlotEv.tasAccess true MemOrder.seq_cst]) := by
  unfold load_and_clear_if_set
  simp [hP, hu, ha]

/-- Witness for C5 at a concrete input: BigStruct-style payload modelled
over Nat, update pending, exclusion flag held by a producer. -/
theorem C5_guarded_fail_fast_witness :
    load_and_clear_if_set (PayloadStorageType_is_atomic BigStruct)
        (⟨true, true, 4⟩ : atomic_notifying_parameter ℕ) 11 =
      (⟨true, true, 4⟩, 11, false,
        [SlotEv.testFlag true MemOrder.seq_cst,
         SlotEv.tasAccess true MemOrder.seq_cst]) :=
  C5_guarded_fail_fast BigStruct rfl
    (⟨true, true, 4⟩ : atomic_notifying_parameter ℕ) 11 rfl rfl

/-- Claim C6: in fast mode (payload storage atomic), when the update flag
is set, load_and_clear_if_set returns true with the payload in the reader
location, and in its event trace the clear of the update flag occurs
strictly before the atomic load of the payload. -/
theorem C6_fast_clear_before_load (P : CppType)
    (hP : PayloadStorageType_is_atomic P = true)
    (s : atomic_notifying_parameter α) (out : α)
    (hu : s.m_has_been_updated = true) :
    (load_and_clear_if_set (PayloadStorageType_is_atomic P) s out).2.1 =
      s.m_payload ∧
    (load_and_clear_if_set (PayloadStorageType_is_atomic P) s out).2.2.1 =
      true ∧
    ∃ i j : ℕ, i < j ∧
      ((load_and_clear_if_set (PayloadStorageType_is_atomic P) s out).2.2.2).get? i
        = some (SlotEv.clearFlag MemOrder.seq_cst) ∧
      ((load_and_clear_if_set (PayloadStorageType_is_atomic P) s out).2.2.2).get? j
        = some (SlotEv.loadPayload s.m_payload MemOrder.seq_cst) := by
  refine ⟨?_, ?_, 1, 2, by norm_num, ?_, ?_⟩ <;>
    simp [load_and_clear_if_set, hP, hu]

/-- Witness for C6 at a concrete input: payload type int in fast mode. -/
theorem C6_fast_clear_before_load_witness :
    (load_and_clear_if_set (PayloadStorageType_is_atomic (.plain true true))
        (⟨true, false, 8⟩ : atomic_notifying_parameter ℕ) 0).2.1 = 8 ∧
    (load_and_clear_if_set (PayloadStorageType_is_atomic (.plain true true))
        (⟨true, false, 8⟩ : atomic_notifying_parameter ℕ) 0).2.2.1 = true ∧
    ∃ i j : ℕ, i < j ∧
      ((load_and_clear_if_set (PayloadStorageType_is_atomic (.plain true true))
        (⟨true, false, 8⟩ : atomic_notifying_parameter ℕ) 0).2.2.2).get? i
        = some (SlotEv.clearFlag MemOrder.seq_cst) ∧
      ((load_and_clear_if_set (PayloadStorageType_is_atomic (.plain true true))
        (⟨true, false, 8⟩ : atomic_notifying_parameter ℕ) 0).2.2.2).get? j
        = some (SlotEv.loadPayload 8 MemOrder.seq_cst) :=
  C6_fast_clear_before_load (.plain true true) rfl
    (⟨true, false, 8⟩ : atomic_notifying_parameter ℕ) 0 rfl

/-- Claim C7: in every completed execution of store_and_set, in either
mode, the write of the new value into the payload cell (atomic store in
fast mode, guarded plain copy in guarded mode) occurs strictly before the
set of the update flag; the flag set uses an order with release semantics,
and every load_and_clear_if_set execution begins with a flag test using an
order with acquire semantics. -/
theorem C7_store_before_set {storage_is_atomic : Bool}
    {s s' : atomic_notifying_parameter α} {v : α} {tr : List (SlotEv α)}
    (h : store_and_set storage_is_atomic s v = some (s', tr)) :
    (∃ (i j : ℕ) (mo : MemOrder), i < j ∧
      (tr.get? i = some (SlotEv.storePayload v MemOrder.seq_cst) ∨
        tr.get? i = some (SlotEv.copyIn v)) ∧
      tr.get? j = some (SlotEv.setFlag mo) ∧ mo.hasRelease = true) ∧
    (∀ (b : Bool) (t : atomic_notifying_parameter α) (out : α),
      ∃ (r : Bool) (mo : MemOrder) (rest : List (SlotEv α)),
        (load_and_clear_if_set b t out).2.2.2 =
          SlotEv.testFlag r mo :: rest ∧ mo.hasAcquire = true) := by
  constructor
  · unfold store_and_set at h
    by_cases hb : storage_is_atomic
    · simp [hb] at h
      exact ⟨0, 1, .seq_cst, by norm_num, Or.inl (by simp [← h.2]),
        by simp [← h.2], rfl⟩
    · by_cases ha : s.m_is_being_accessed
      · simp [hb, ha] at h
      · simp [hb, ha] at h
        exact ⟨2, 5, .seq_cst, by norm_num, Or.inr (by simp [← h.2]),
          by simp [← h.2], rfl⟩
  · intro b t out
    unfold load_and_clear_if_set
    by_cases hu : t.m_has_been_updated
    · by_cases hb2 : b
      · exact ⟨true, .seq_cst,
          [.clearFlag .seq_cst, .loadPayload t.m_payload .seq_cst],
          by simp [hu, hb2], rfl⟩
      · by_cases ha2 : t.m_is_being_accessed
        · exact ⟨true, .seq_cst, [.tasAccess true .seq_cst],
            by simp [hu, hb2, ha2], rfl⟩
        · exact ⟨true, .seq_cst,
            [.tasAccess false .seq_cst, .copyOut t.m_payload,
             .clearFlag .seq_cst, .clearAccess .seq_cst, .notifyAll],
            by simp [hu, hb2, ha2], rfl⟩
    · exact ⟨false, .seq_cst, [], by simp [hu], rfl⟩

/-- Witness for C7 at a concrete input: a fast-mode store of 6 from a
fresh slot. -/
theorem C7_store_before_set_witness :
    (∃ (i j : ℕ) (mo : MemOrder), i < j ∧
      (([SlotEv.storePayload (6 : ℕ) MemOrder.seq_cst,
          SlotEv.setFlag MemOrder.seq_cst]).get? i =
            some (SlotEv.storePayload 6 MemOrder.seq_cst) ∨
        ([SlotEv.storePayload (6 : ℕ) MemOrder.seq_cst,
          SlotEv.setFlag MemOrder.seq_cst]).get? i = some (SlotEv.copyIn 6)) ∧
      ([SlotEv.storePayload (6 : ℕ) MemOrder.seq_cst,
        SlotEv.setFlag MemOrder.seq_cst]).get? j = some (SlotEv.setFlag mo) ∧
        mo.hasRelease = true) ∧
    (∀ (b : Bool) (t : atomic_notifying_parameter ℕ) (out : ℕ),
      ∃ (r : Bool) (mo : MemOrder) (rest : List (SlotEv ℕ)),
        (load_and_clear_if_set b t out).2.2.2 =
          SlotEv.testFlag r mo :: rest ∧ mo.hasAcquire = true) :=
  @C7_store_before_set ℕ true ⟨false, false, 0⟩ ⟨true, false, 6⟩ 6
    [SlotEv.storePayload 6 MemOrder.seq_cst, SlotEv.setFlag MemOrder.seq_cst] rfl

/-- Claim C10: in guarded mode, when the consume fails fast because the
exclusion flag is held, the update flag stays set and the payload is
unchanged, so once the exclusion flag is released a later
load_and_clear_if_set succeeds and delivers exactly that payload. -/
theorem C10_no_lost_notification (P : CppType)
    (hP : PayloadStorageType_is_atomic P = false)
    (s : atomic_notifying_parameter α) (out out2 : α)
    (hu : s.m_has_been_updated = true) (ha : s.m_is_being_accessed = true) :
    (load_and_clear_if_set (PayloadStorageType_is_atomic P) s out).2.2.1 =
      false ∧
    (load_and_clear_if_set (PayloadStorageType_is_atomic P) s out).2.1 = out ∧
    (load_and_clear_if_set (PayloadStorageType_is_atomic P) s
      out).1.m_has_been_updated = true ∧
    (load_and_clear_if_set (PayloadStorageType_is_atomic P) s
      out).1.m_payload = s.m_payload ∧
    (load_and_clear_if_set (PayloadStorageType_is_atomic P)
      { s with m_is_being_accessed := false } out2).2.1 = s.m_payload ∧
    (load_and_clear_if_set (PayloadStorageType_is_atomic P)
      { s with m_is_being_accessed := false } out2).2.2.1 = true := by
  refine ⟨?_, ?_, ?_, ?_, ?_, ?_⟩ <;>
    simp [load_and_clear_if_set, hP, hu, ha]

/-- Witness for C10 at a concrete input: guarded-mode slot over Nat with a
pending update and the exclusion flag held. -/
theorem C10_no_lost_notification_witness :
    (load_and_clear_if_set (PayloadStorageType_is_atomic BigStruct)
        (⟨true, true, 21⟩ : atomic_notifying_parameter ℕ) 1).2.2.1 = false ∧
    (load_and_clear_if_set (PayloadStorageType_is_atomic BigStruct)
        (⟨true, true, 21⟩ : atomic_notifying_parameter ℕ) 1).2.1 = 1 ∧
    (load_and_clear_if_set (PayloadStorageType_is_atomic BigStruct)
        (⟨true, true, 21⟩ : atomic_notifying_parameter ℕ)
        1).1.m_has_been_updated = true ∧
    (load_and_clear_if_set (PayloadStorageType_is_atomic BigStruct)
        (⟨true, true, 21⟩ : atomic_notifying_parameter ℕ) 1).1.m_payload = 21 ∧
    (load_and_clear_if_set (PayloadStorageType_is_atomic BigStruct)
        ({ (⟨true, true, 21⟩ : atomic_notifying_parameter ℕ) with
            m_is_being_accessed := false }) 2).2.1 = 21 ∧
    (load_and_clear_if_set (PayloadStorageType_is_atomic BigStruct)
        ({ (⟨true, true, 21⟩ : atomic_notifying_parameter ℕ) with
            m_is_being_accessed := false }) 2).2.2.1 = true :=
  C10_no_lost_notification BigStruct rfl
    (⟨true, true, 21⟩ : atomic_notifying_parameter ℕ) 1 2 rfl rfl

/-- Primitive events performed by DoubleCheckedLock, in source order: the
relaxed cell loads, the fences, the guard-mutex acquire and (RAII) release,
the filler invocation, and the relaxed cell store. -/
inductive DclEv where
  | loadCell (mo : MemOrder)
  | fenceAcquire
  | lockAcquire
  | lockRelease
  | fillerInvoke
  | fenceRelease
  | storeCell (mo : MemOrder)
deriving DecidableEq, Repr

/-- State of one DoubleCheckedLock cache cell: the cell contents and the
number of filler invocations performed so far (the latter is ghost state
used to count invocations; the filler of the k-th invocation is modelled as
`filler k`, so stateful fillers are covered). -/
structure DclState (α : Type) where
  cell : α
  fills : ℕ
deriving DecidableEq, Repr

/-- DoubleCheckedLock from double_checked_lock.h, sequential semantics.
`NullVal` is the designated empty sentinel; `filler k` is the outcome of
the k-th filler invocation, either a value or a raised error.  Returns the
new state, the call result (the propagated error when the filler fails),
and the event trace; the lock-release event is emitted on the error path
too, mirroring the std unique_lock scope guard. -/
def DoubleCheckedLock [DecidableEq α] (NullVal : α) (filler : ℕ → Except ε α)
    (st : DclState α) : DclState α × Except ε α × List DclEv :=
  let temp := st.cell
  if temp = NullVal then
    -- First check found the sentinel: take the guard mutex and re-check.
    let temp2 := st.cell
    if temp2 = NullVal then
      match filler st.fills with
      | .error e =>
          ({ cell := st.cell, fills := st.fills + 1 }, .error e,
            [.loadCell .relaxed, .fenceAcquire, .lockAcquire,
             .loadCell .relaxed, .fillerInvoke, .lockRelease])
      | .ok v =>
          ({ cell := v, fills := st.fills + 1 }, .ok v,
            [.loadCell .relaxed, .fenceAcquire, .lockAcquire,
             .loadCell .relaxed, .fillerInvoke, .fenceRelease,
             .storeCell .relaxed, .lockRelease])
    else
      (st, .ok temp2,
        [.loadCell .relaxed, .fenceAcquire, .lockAcquire,
         .loadCell .relaxed, .lockRelease])
  else
    (st, .ok temp, [.loadCell .relaxed, .fenceAcquire])

/-- Sequentially performing n DoubleCheckedLock calls on the same cell. -/
def dclCalls [DecidableEq α] (NullVal : α) (filler : ℕ → Except ε α) :
    ℕ → DclState α → DclState α
  | 0, st => st
  | n + 1, st => dclCalls NullVal filler n (DoubleCheckedLock NullVal filler st).1

/-- When the cell does not hold the sentinel, a call is the pure fast path:
it returns the cached value, changes nothing, and performs no lock or
filler event. -/
theorem DoubleCheckedLock_fast_path [DecidableEq α] (NullVal : α)
    (filler : ℕ → Except ε α) (st : DclState α) (h : st.cell ≠ NullVal) :
    DoubleCheckedLock NullVal filler st =
      (st, .ok st.cell, [.loadCell .relaxed, .fenceAcquire]) := by
  unfold DoubleCheckedLock
  simp [h]

/-- Repeated calls on a non-sentinel cell leave the state unchanged. -/
theorem dclCalls_fixed [DecidableEq α] (NullVal : α)
    (filler : ℕ → Except ε α) :
    ∀ (n : ℕ) (st : DclState α), st.cell ≠ NullVal →
      dclCalls NullVal filler n st = st := by
  intro n
  induction n with
  | zero => intro st h; rfl
  | succ n ih =>
      intro st h
      rw [dclCalls, DoubleCheckedLock_fast_path NullVal filler st h]
      exact ih st h

/-- Counterexample to claim C8 as stated: with sentinel 0 and a filler that
returns 0 (the sentinel itself), two successive calls on the empty cell
invoke the filler twice — the stored result is indistinguishable from the
empty cell, so the at-most-once bound fails without a non-sentinel
assumption on the filler result. -/
theorem C8_exactly_once_counterexample :
    (dclCalls 0 (fun _ => (Except.ok 0 : Except Unit ℕ)) 2 ⟨0, 0⟩).fills = 2 ∧
    ¬ (dclCalls 0 (fun _ => (Except.ok 0 : Except Unit ℕ)) 2 ⟨0, 0⟩).fills ≤ 1 := by
  decide

/-- Claim C8 (amended): provided the filler succeeds with a value distinct
from the empty sentinel, then over any number of further calls after the
first on an initially empty cell, the filler has run exactly once, the
cell caches its result, and every later call returns that cached value via
the fast path without invoking the filler again. -/
theorem C8_exactly_once_amended [DecidableEq α] (NullVal v : α)
    (filler : ℕ → Except ε α) (hf : filler 0 = .ok v) (hv : v ≠ NullVal)
    (n : ℕ) :
    (dclCalls NullVal filler (n + 1) ⟨NullVal, 0⟩).fills = 1 ∧
    (dclCalls NullVal filler (n + 1) ⟨NullVal, 0⟩).cell = v ∧
    (DoubleCheckedLock NullVal filler
      (dclCalls NullVal filler (n + 1) ⟨NullVal, 0⟩)).2.1 = Except.ok v ∧
    DclEv.fillerInvoke ∉
      (DoubleCheckedLock NullVal filler
        (dclCalls NullVal filler (n + 1) ⟨NullVal, 0⟩)).2.2 := by
  have h1 : (DoubleCheckedLock NullVal filler
      (⟨NullVal, 0⟩ : DclState α)).1 = ⟨v, 1⟩ := by
    unfold DoubleCheckedLock
    simp [hf]
  have h2 : dclCalls NullVal filler (n + 1) (⟨NullVal, 0⟩ : DclState α)
      = ⟨v, 1⟩ := by
    rw [dclCalls, h1]
    exact dclCalls_fixed NullVal filler n ⟨v, 1⟩ hv
  rw [h2, DoubleCheckedLock_fast_path NullVal filler ⟨v, 1⟩ hv]
  simp

/-- Witness for the amended C8 at a concrete input: sentinel 0, filler
returning 1, two calls. -/
theorem C8_exactly_once_amended_witness :
    (dclCalls 0 (fun _ => (Except.ok 1 : Except Unit ℕ)) 2 ⟨0, 0⟩).fills = 1 ∧
    (dclCalls 0 (fun _ => (Except.ok 1 : Except Unit ℕ)) 2 ⟨0, 0⟩).cell = 1 ∧
    (DoubleCheckedLock 0 (fun _ => (Except.ok 1 : Except Unit ℕ))
      (dclCalls 0 (fun _ => (Except.ok 1 : Except Unit ℕ)) 2 ⟨0, 0⟩)).2.1 =
        Except.ok 1 ∧
    DclEv.fillerInvoke ∉
      (DoubleCheckedLock 0 (fun _ => (Except.ok 1 : Except Unit ℕ))
        (dclCalls 0 (fun _ => (Except.ok 1 : Except Unit ℕ)) 2 ⟨0, 0⟩)).2.2 :=
  C8_exactly_once_amended 0 1 (fun _ => (Except.ok 1 : Except Unit ℕ))
    rfl (by decide) 1

/-- Claim C9: when the filler of a call that reaches the fill raises an
error, the error propagates as the call's result, the cell remains the
empty sentinel, the trace shows the guard mutex released after its acquire
(the RAII release on the unwind path), and a later call whose filler
succeeds returns the filled value — the cell is retry-able. -/
theorem C9_filler_failure [DecidableEq α] (NullVal : α)
    (filler : ℕ → Except ε α) (st : DclState α) (e : ε)
    (hc : st.cell = NullVal) (hf : filler st.fills = .error e) :
    (DoubleCheckedLock NullVal filler st).2.1 = Except.error e ∧
    (DoubleCheckedLock NullVal filler st).1.cell = NullVal ∧
    (DoubleCheckedLock NullVal filler st).2.2 =
      [DclEv.loadCell MemOrder.relaxed, DclEv.fenceAcquire,
       DclEv.lockAcquire, DclEv.loadCell MemOrder.relaxed,
       DclEv.fillerInvoke, DclEv.lockRelease] ∧
    (∀ w : α,
      filler (DoubleCheckedLock NullVal filler st).1.fills = Except.ok w →
      (DoubleCheckedLock NullVal filler
        (DoubleCheckedLock NullVal filler st).1).2.1 = Except.ok w) := by
  refine ⟨?_, ?_, ?_, ?_⟩
  · simp [DoubleCheckedLock, hc, hf]
  · simp [DoubleCheckedLock, hc, hf]
  · simp [DoubleCheckedLock, hc, hf]
  · intro w hw
    simp [DoubleCheckedLock, hc, hf] at hw ⊢
    simp [hw]

/-- Witness for C9 at a concrete input: sentinel 0, a filler that fails on
its first invocation and returns 1 on its second, starting from the empty
cell. -/
theorem C9_filler_failure_witness :
    (DoubleCheckedLock 0
      (fun k => if k = 0 then (Except.error () : Except Unit ℕ) else Except.ok 1)
      ⟨0, 0⟩).2.1 = Except.error () ∧
    (DoubleCheckedLock 0
      (fun k => if k = 0 then (Except.error () : Except Unit ℕ) else Except.ok 1)
      ⟨0, 0⟩).1.cell = 0 ∧
    (DoubleCheckedLock 0
      (fun k => if k = 0 then (Except.error () : Except Unit ℕ) else Except.ok 1)
      ⟨0, 0⟩).2.2 =
      [DclEv.loadCell MemOrder.relaxed, DclEv.fenceAcquire,
       DclEv.lockAcquire, DclEv.loadCell MemOrder.relaxed,
       DclEv.fillerInvoke, DclEv.lockRelease] ∧
    (∀ w : ℕ,
      (fun k => if k = 0 then (Except.error () : Except Unit ℕ) else Except.ok 1)
        ((DoubleCheckedLock 0
          (fun k => if k = 0 then (Except.error () : Except Unit ℕ) else Except.ok 1)
          ⟨0, 0⟩).1.fills) = Except.ok w →
      (DoubleCheckedLock 0
        (fun k => if k = 0 then (Except.error () : Except Unit ℕ) else Except.ok 1)
        ((DoubleCheckedLock 0
          (fun k => if k = 0 then (Except.error () : Except Unit ℕ) else Except.ok 1)
          ⟨0, 0⟩).1)).2.1 = Except.ok w) :=
  C9_filler_failure 0
    (fun k => if k = 0 then (Except.error () : Except Unit ℕ) else Except.ok 1)
    ⟨0, 0⟩ () rfl rfl

end Grvslib
